import Mathlib

/-!
Verification of the image-generation service in `main.py`.

The service is a FastAPI application exposing `POST /v1/generate_image`.
We give a shallow embedding of its request pipeline:

* `ChatbotService.get_bot_response_for_context` — the "reaction" LLM call
  with its synthesized fallback string;
* `ChatbotService.extract_context` — the "scene" LLM call returning a JSON
  object with keys emotion/location/action, defaulting on any failure;
* `ChatbotService.generate_and_save_selfie` — the remote image-generation
  call, file save under `static/images/<uuid>.png`, and base64 encoding;
* the endpoint `generate_image` — bot-id validation against the registry,
  base-image lookup over a fixed ordered extension list, and response
  assembly.

External effects (the two LLM calls, the upstream image-generation call,
`os.path.exists`, `uuid.uuid4()`, and the request's base URL) are modelled
as oracle fields of a per-request environment `RequestEnv`; the rest of the
pipeline is translated directly from the source.  Bytes are `Nat` values
(< 256 where it matters); Python dicts of strings are association lists;
raising `HTTPException` is modelled with `Except HTTPError`.
-/

/-- A request body for `POST /v1/generate_image` (`ImageGenerationRequest`
in `main.py`). -/
structure ImageGenerationRequest where
  bot_id : String
  message : String
  email : String
  previous_conversation : String
  username : String
deriving DecidableEq

/-- The success response shape (`ImageGenerationResponse` in `main.py`).
The Python `Dict[str, str]` for `emotion_context` is an association list. -/
structure ImageGenerationResponse where
  bot_id : String
  image_url : String
  image_base64 : String
  status : String
  emotion_context : List (String × String)
deriving DecidableEq

/-- The error outcomes the endpoint can raise (`HTTPException` with the
status codes used in `main.py`). -/
inductive HTTPError where
  | notFound (detail : String)
  | serviceUnavailable (detail : String)
  | internal (detail : String)
deriving DecidableEq

/-- The HTTP status code carried by each error. -/
def HTTPError.statusCode : HTTPError → Nat
  | .notFound _ => 404
  | .serviceUnavailable _ => 503
  | .internal _ => 500

/-- Python `dict.get(key, default)` on an association list. -/
def dictGet (ctx : List (String × String)) (key deflt : String) : String :=
  match ctx.lookup key with
  | some v => v
  | none => deflt

/-- Outcome of the "scene" LLM call (`litellm.completion` +
`json.loads` in `extract_context`): the call itself may raise, the
returned content may fail to parse as JSON, or it parses to a JSON object
(association list of string fields). -/
inductive SceneOutcome where
  | callFailed
  | parseFailed
  | parsed (obj : List (String × String))
deriving DecidableEq

/-- Per-request oracle environment: all external interactions of one
request, plus the state of the shared Gradio client. -/
structure RequestEnv where
  /-- `self.gradio_client` is set (initialization at startup succeeded). -/
  clientSet : Bool
  /-- the set of paths for which `os.path.exists` returns true. -/
  existingFiles : List String
  /-- outcome of the "reaction" LLM call: `some content` on success,
  `none` when `litellm.completion` raises. -/
  reaction : Option String
  /-- outcome of the "scene" LLM call. -/
  scene : SceneOutcome
  /-- outcome of the upstream image generation (`gradio_client.predict`,
  response-shape check and temp-file read): `some bytes` yields the image
  bytes, `none` when any step of the `try` block raises. -/
  upstream : Option (List Nat)
  /-- the value of `str(uuid.uuid4())` drawn by this request. -/
  uuid : String
  /-- `str(http_request.base_url)`. -/
  base_url : String
deriving DecidableEq

/-! ### Base64 (`base64.b64encode(...).decode('utf-8')` and decoding) -/

/-- The standard base64 alphabet. -/
def b64Alphabet : List Char :=
  "ABCDEFGHIJKLMNOPQRSTUVWXYZabcdefghijklmnopqrstuvwxyz0123456789+/".data

/-- The base64 character for a sextet. -/
def b64Char (n : Nat) : Char := b64Alphabet.getD n 'A'

/-- Position of a character in a list, if present. -/
def charIndexFrom (c : Char) : List Char → Nat → Option Nat
  | [], _ => none
  | d :: rest, i => if d = c then some i else charIndexFrom c rest (i + 1)

/-- The sextet a base64 character stands for, if any. -/
def b64Index (c : Char) : Option Nat := charIndexFrom c b64Alphabet 0

/-- Standard base64 encoding of a byte list, three bytes per four output
characters, padded with `=`. -/
def b64encodeChunks : List Nat → List Char
  | a :: b :: c :: rest =>
      b64Char (a / 4) :: b64Char ((a % 4) * 16 + b / 16) ::
      b64Char ((b % 16) * 4 + c / 64) :: b64Char (c % 64) ::
      b64encodeChunks rest
  | [a, b] =>
      [b64Char (a / 4), b64Char ((a % 4) * 16 + b / 16), b64Char ((b % 16) * 4), '=']
  | [a] =>
      [b64Char (a / 4), b64Char ((a % 4) * 16), '=', '=']
  | [] => []

/-- Decode one four-character base64 group (possibly padded). -/
def b64decodeQuad (c1 c2 c3 c4 : Char) : Option (List Nat) :=
  if c4 = '=' then
    if c3 = '=' then
      match b64Index c1, b64Index c2 with
      | some s1, some s2 => if s2 % 16 = 0 then some [s1 * 4 + s2 / 16] else none
      | _, _ => none
    else
      match b64Index c1, b64Index c2, b64Index c3 with
      | some s1, some s2, some s3 =>
          if s3 % 4 = 0 then some [s1 * 4 + s2 / 16, (s2 % 16) * 16 + s3 / 4] else none
      | _, _, _ => none
  else
    match b64Index c1, b64Index c2, b64Index c3, b64Index c4 with
    | some s1, some s2, some s3, some s4 =>
        some [s1 * 4 + s2 / 16, (s2 % 16) * 16 + s3 / 4, (s3 % 4) * 64 + s4]
    | _, _, _, _ => none

/-- Base64 decoding of a character list, four characters at a time. -/
def b64decodeChunks : List Char → Option (List Nat)
  | [] => some []
  | c1 :: c2 :: c3 :: c4 :: rest =>
      match b64decodeQuad c1 c2 c3 c4, b64decodeChunks rest with
      | some bytes, some tail => some (bytes ++ tail)
      | _, _ => none
  | _ => none

/-- `base64.b64encode(bytes).decode('utf-8')`. -/
def b64encodeStr (bytes : List Nat) : String := String.mk (b64encodeChunks bytes)

/-- Base64 decoding of a string back to bytes. -/
def b64decodeStr (s : String) : Option (List Nat) := b64decodeChunks s.data

/-! ### String helpers used by the endpoint -/

/-- Python `bot_id.replace("_", " ")` (single-character pattern, hence a
character map). -/
def replaceUnderscore (s : String) : String :=
  String.mk (s.data.map (fun c => if c = '_' then ' ' else c))

/-- One step of Python `str.title()`: capitalize a letter that follows a
non-letter, lowercase a letter that follows a letter. -/
def titleCaseGo : Bool → List Char → List Char
  | _, [] => []
  | prevAlpha, c :: rest =>
      if c.isAlpha then
        (if prevAlpha then c.toLower else c.toUpper) :: titleCaseGo true rest
      else
        c :: titleCaseGo false rest

/-- Python `str.title()`. -/
def titleCase (s : String) : String := String.mk (titleCaseGo false s.data)

/-- Python `s.rstrip('/')` on a character list. -/
def rstripSlashL (l : List Char) : List Char :=
  (l.reverse.dropWhile (fun c => c == '/')).reverse

/-- Python `base_url.rstrip('/')`. -/
def rstripSlash (s : String) : String := String.mk (rstripSlashL s.data)

/-- The suffix of a URL after its scheme and authority: skip to the first
`://`, then to the next `/`.  Used to speak about the path component of
the returned `image_url`. -/
def dropToPath : List Char → List Char
  | [] => []
  | c :: rest =>
      if c = ':' then
        match rest with
        | '/' :: '/' :: rest2 => rest2.dropWhile (fun d => d != '/')
        | _ => dropToPath rest
      else dropToPath rest

/-- Path component of an absolute URL. -/
def urlPath (u : String) : String := String.mk (dropToPath u.data)

/-! ### The service methods (`ChatbotService` in `main.py`) -/

/-- `ChatbotService.get_bot_response_for_context`: returns the LLM
content on success; when the call raises, returns the synthesized string
`f"{bot_name} is thinking about the message: '{request_data.message}'"`. -/
def get_bot_response_for_context (request_data : ImageGenerationRequest)
    (bot_name : String) (llmOutcome : Option String) : String :=
  match llmOutcome with
  | some content => content
  | none => bot_name ++ " is thinking about the message: '" ++ request_data.message ++ "'"

/-- The literal default triple returned by `extract_context` on failure. -/
def defaultSceneContext : List (String × String) :=
  [("emotion", "neutral"), ("location", "a room"), ("action", "looking at the camera")]

/-- `ChatbotService.extract_context`: the parsed JSON object on success;
the fixed default triple when the call raises or `json.loads` fails. -/
def extract_context : SceneOutcome → List (String × String)
  | .parsed obj => obj
  | .callFailed => defaultSceneContext
  | .parseFailed => defaultSceneContext

/-- The `prompt_text` f-string built in `generate_and_save_selfie`
(lines 147–151 of `main.py`), with its per-key `.get` fallbacks. -/
def prompt_text (bot_name : String) (context : List (String × String)) : String :=
  "Close-up portrait of a person who looks like the reference image, with a " ++
  dictGet context "emotion" "neutral expression" ++ " expression, " ++
  dictGet context "action" "looking at the camera" ++ ", at " ++
  dictGet context "location" "a neutral background" ++ ". " ++
  "The person's name is " ++ bot_name ++ ". Ultra-detailed, dslr quality, cinematic photo."

/-- The value returned by a successful `generate_and_save_selfie`, together
with its observable effects: the file write (path and bytes) and the prompt
sent to the upstream service. -/
structure SelfieResult where
  /-- first component of the returned tuple: `f"/static/images/{unique_filename}"`. -/
  imagePath : String
  /-- second component: the base64-encoded image string. -/
  imageBase64 : String
  /-- the path the image bytes were written to (`output_path`). -/
  writtenPath : String
  /-- the bytes written to `output_path` (also the bytes that were encoded). -/
  writtenBytes : List Nat
  /-- the prompt passed to `gradio_client.predict`. -/
  promptSent : String
deriving DecidableEq

/-- `ChatbotService.generate_and_save_selfie`: raises 503 when the Gradio
client is unset; otherwise builds the prompt, calls the upstream service
(any failure in the `try` block becomes a 500), reads the image bytes,
base64-encodes them, and writes them under
`static/images/{uuid.uuid4()}.png`. -/
def generate_and_save_selfie (clientSet : Bool) (bot_name : String)
    (base_image_path : String) (context : List (String × String))
    (upstream : Option (List Nat)) (u : String) : Except HTTPError SelfieResult :=
  if clientSet = false then
    .error (.serviceUnavailable "Image generation service is not available.")
  else
    let prompt := prompt_text bot_name context
    match upstream with
    | none => .error (.internal "Failed to generate the image internally.")
    | some image_bytes =>
        let base64_encoded_image := b64encodeStr image_bytes
        let unique_filename := u ++ ".png"
        let output_path := "static/images/" ++ unique_filename
        .ok { imagePath := "/static/images/" ++ unique_filename,
              imageBase64 := base64_encoded_image,
              writtenPath := output_path,
              writtenBytes := image_bytes,
              promptSent := prompt }

/-! ### The endpoint (`generate_image` in `main.py`) -/

/-- The fixed ordered extension list scanned for the base image. -/
def supported_extensions : List String := [".jpeg", ".jpg", ".png", ".webp"]

/-- The `for ext in supported_extensions` loop with `break`: the first
path `photos/<bot_id><ext>` that exists, scanning `exts` in order. -/
def findFirstExisting (existingFiles : List String) (bot_id : String) :
    List String → Option String
  | [] => none
  | ext :: rest =>
      let path := "photos/" ++ bot_id ++ ext
      if existingFiles.contains path then some path
      else findFirstExisting existingFiles bot_id rest

/-- The base-image lookup of the endpoint (lines 211–218 of `main.py`). -/
def find_base_image (existingFiles : List String) (bot_id : String) : Option String :=
  findFirstExisting existingFiles bot_id supported_extensions

/-- A successful endpoint run: the response body plus the request's
observable effects. -/
structure EndpointSuccess where
  response : ImageGenerationResponse
  /-- path of the file written during this request. -/
  writtenPath : String
  /-- bytes written to that file. -/
  writtenBytes : List Nat
  /-- the base image path resolved for the request. -/
  basePath : String
  /-- the prompt sent to the upstream image service. -/
  promptSent : String
deriving DecidableEq

/-- `POST /v1/generate_image` (`generate_image` in `main.py`), for a given
registry of valid bot ids (the keys of `BOT_PROMPTS`) and a per-request
oracle environment. -/
def generate_image (validBotIds : List String) (env : RequestEnv)
    (req : ImageGenerationRequest) : Except HTTPError EndpointSuccess :=
  let bot_id := req.bot_id
  if bot_id ∈ validBotIds then
    match find_base_image env.existingFiles bot_id with
    | none =>
        .error (.notFound ("Base image for bot '" ++ bot_id ++
          "' not found in the 'photos' folder. Please ensure the image file exists and has a matching name (e.g., delhi_mentor_male.jpeg)."))
    | some base_image_path =>
        let bot_name := titleCase (replaceUnderscore bot_id)
        let bot_response_text := get_bot_response_for_context req bot_name env.reaction
        let context := extract_context env.scene
        match generate_and_save_selfie env.clientSet bot_name base_image_path context
            env.upstream env.uuid with
        | .error e => .error e
        | .ok r =>
            let full_image_url := rstripSlash env.base_url ++ r.imagePath
            .ok { response :=
                    { bot_id := bot_id,
                      image_url := full_image_url,
                      image_base64 := r.imageBase64,
                      status := "success",
                      emotion_context := context },
                  writtenPath := r.writtenPath,
                  writtenBytes := r.writtenBytes,
                  basePath := base_image_path,
                  promptSent := r.promptSent }
  else
    .error (.notFound ("Bot with id '" ++ bot_id ++ "' is not a valid bot."))

/-- The HTTP status code of an endpoint run, `none` on success. -/
def errorStatus : Except HTTPError EndpointSuccess → Option Nat
  | .error e => some e.statusCode
  | .ok _ => none

/-- The path the endpoint run saved its artifact to, `none` on error. -/
def savedPathOf : Except HTTPError EndpointSuccess → Option String
  | .error _ => none
  | .ok r => some r.writtenPath

/-- The bytes the endpoint run saved, `none` on error. -/
def savedBytesOf : Except HTTPError EndpointSuccess → Option (List Nat)
  | .error _ => none
  | .ok r => some r.writtenBytes

/-- The `emotion_context` field of the response, `none` on error. -/
def contextOf : Except HTTPError EndpointSuccess → Option (List (String × String))
  | .error _ => none
  | .ok r => some r.response.emotion_context

/-- The `image_base64` field of the response, `none` on error. -/
def base64Of : Except HTTPError EndpointSuccess → Option String
  | .error _ => none
  | .ok r => some r.response.image_base64

/-- The `image_url` field of the response, `none` on error. -/
def imageUrlOf : Except HTTPError EndpointSuccess → Option String
  | .error _ => none
  | .ok r => some r.response.image_url

/-- The `status` field of the response, `none` on error. -/
def statusOf : Except HTTPError EndpointSuccess → Option String
  | .error _ => none
  | .ok r => some r.response.status

/-- The prompt the endpoint run sent upstream, `none` on error. -/
def promptOf : Except HTTPError EndpointSuccess → Option String
  | .error _ => none
  | .ok r => some r.promptSent

/-! ### Helper lemmas -/

theorem b64Index_b64Char : ∀ n, n < 64 → b64Index (b64Char n) = some n := by decide

theorem b64Char_ne_pad : ∀ n, n < 64 → b64Char n ≠ '=' := by decide

/-- Base64 decoding inverts encoding on byte lists. -/
theorem b64decode_b64encode : ∀ bytes : List Nat, (∀ x ∈ bytes, x < 256) →
    b64decodeChunks (b64encodeChunks bytes) = some bytes
  | [], _ => rfl
  | [a], h => by
      have ha : a < 256 := h a (by simp)
      have h1 := b64Index_b64Char (a / 4) (by omega)
      have h2 := b64Index_b64Char ((a % 4) * 16) (by omega)
      have h3 : (a % 4) * 16 % 16 = 0 := by omega
      simp [b64encodeChunks, b64decodeChunks, b64decodeQuad, h1, h2, h3]
      omega
  | [a, b], h => by
      have ha : a < 256 := h a (by simp)
      have hb : b < 256 := h b (by simp)
      have hne := b64Char_ne_pad ((b % 16) * 4) (by omega)
      have h1 := b64Index_b64Char (a / 4) (by omega)
      have h2 := b64Index_b64Char ((a % 4) * 16 + b / 16) (by omega)
      have h3 := b64Index_b64Char ((b % 16) * 4) (by omega)
      have h4 : (b % 16) * 4 % 4 = 0 := by omega
      simp [b64encodeChunks, b64decodeChunks, b64decodeQuad, hne, h1, h2, h3, h4]
      omega
  | a :: b :: c :: rest, h => by
      have ha : a < 256 := h a (by simp)
      have hb : b < 256 := h b (by simp)
      have hc : c < 256 := h c (by simp)
      have ih := b64decode_b64encode rest (fun x hx => h x (by simp [hx]))
      have hne := b64Char_ne_pad (c % 64) (by omega)
      have h1 := b64Index_b64Char (a / 4) (by omega)
      have h2 := b64Index_b64Char ((a % 4) * 16 + b / 16) (by omega)
      have h3 := b64Index_b64Char ((b % 16) * 4 + c / 64) (by omega)
      have h4 := b64Index_b64Char (c % 64) (by omega)
      simp [b64encodeChunks, b64decodeChunks, b64decodeQuad, hne, h1, h2, h3, h4, ih]
      omega

/-- Two strings with equal character data are equal. -/
theorem string_eq_of_data_eq {s t : String} (h : s.data = t.data) : s = t :=
  congrArg String.mk h

/-- A successful endpoint run, fully computed from the oracle environment. -/
theorem generate_image_ok (validBotIds : List String) (env : RequestEnv)
    (req : ImageGenerationRequest) (base_image_path : String) (bytes : List Nat)
    (h1 : req.bot_id ∈ validBotIds)
    (h2 : find_base_image env.existingFiles req.bot_id = some base_image_path)
    (h3 : env.clientSet = true)
    (h4 : env.upstream = some bytes) :
    generate_image validBotIds env req = .ok {
      response := {
        bot_id := req.bot_id,
        image_url := rstripSlash env.base_url ++ ("/static/images/" ++ (env.uuid ++ ".png")),
        image_base64 := b64encodeStr bytes,
        status := "success",
        emotion_context := extract_context env.scene },
      writtenPath := "static/images/" ++ (env.uuid ++ ".png"),
      writtenBytes := bytes,
      basePath := base_image_path,
      promptSent := prompt_text (titleCase (replaceUnderscore req.bot_id))
        (extract_context env.scene) } := by
  simp [generate_image, generate_and_save_selfie, h1, h2, h3, h4, b64encodeStr]

theorem dropWhile_slash_of_all_ne (l rest : List Char) (h : ∀ ch ∈ l, ch ≠ '/') :
    (l ++ '/' :: rest).dropWhile (fun d => d != '/') = '/' :: rest := by
  induction l with
  | nil => simp [List.dropWhile_cons]
  | cons a t ih =>
      have ha : a ≠ '/' := h a (by simp)
      simp [List.dropWhile_cons, ha, ih (fun ch hch => h ch (by simp [hch]))]

theorem dropToPath_skip (l rest : List Char) (h : ∀ ch ∈ l, ch ≠ ':') :
    dropToPath (l ++ rest) = dropToPath rest := by
  induction l with
  | nil => rfl
  | cons a t ih =>
      have ha : a ≠ ':' := h a (by simp)
      simp only [List.cons_append, dropToPath, if_neg ha]
      exact ih (fun ch hch => h ch (by simp [hch]))

theorem dropToPath_auth (xs : List Char) :
    dropToPath (':' :: '/' :: '/' :: xs) = xs.dropWhile (fun d => d != '/') := by
  simp [dropToPath]

theorem rstripSlashL_concat (l : List Char) (c : Char) (hc : c ≠ '/') :
    rstripSlashL (l ++ [c, '/']) = l ++ [c] := by
  simp [rstripSlashL, List.dropWhile_cons, hc]

/-- `rstrip('/')` on a base URL `scheme://host/` yields `scheme://host`
when the host is nonempty and slash-free. -/
theorem rstrip_base (scheme host : String)
    (hh0 : host.data ≠ []) (hh : ∀ ch ∈ host.data, ch ≠ '/') :
    rstripSlash (scheme ++ "://" ++ host ++ "/") = scheme ++ "://" ++ host := by
  rcases List.eq_nil_or_concat host.data with h | ⟨t, c, h⟩
  · exact absurd h hh0
  · apply string_eq_of_data_eq
    have hc : c ≠ '/' := hh c (by simp [h])
    simp only [rstripSlash, String.data_append, h, List.concat_eq_append]
    rw [show scheme.data ++ [':', '/', '/'] ++ (t ++ [c]) ++ ['/']
        = (scheme.data ++ [':', '/', '/'] ++ t) ++ [c, '/'] from by simp,
      rstripSlashL_concat _ _ hc]
    simp

/-- The path component of `scheme://host` followed by an absolute path. -/
theorem urlPath_full (scheme host tail : String)
    (hs : ∀ ch ∈ scheme.data, ch ≠ ':')
    (hh : ∀ ch ∈ host.data, ch ≠ '/') :
    urlPath ((scheme ++ "://" ++ host) ++ ("/" ++ tail)) = "/" ++ tail := by
  apply string_eq_of_data_eq
  have hdata : ((scheme ++ "://" ++ host) ++ ("/" ++ tail)).data
      = scheme.data ++ (':' :: '/' :: '/' :: (host.data ++ ('/' :: tail.data))) := by
    simp [String.data_append]
  simp only [urlPath, hdata, dropToPath_skip _ _ hs, dropToPath_auth,
    dropWhile_slash_of_all_ne _ _ hh, String.data_append]
  simp

/-- Cancel a common prefix and suffix of string concatenations. -/
theorem append_affix_inj (a c u v : String) (h : a ++ (u ++ c) = a ++ (v ++ c)) : u = v := by
  have hd := congrArg String.data h
  simp only [String.data_append] at hd
  exact string_eq_of_data_eq (List.append_cancel_right (List.append_cancel_left hd))

/-- Shape of the paths produced by a successful `generate_and_save_selfie`. -/
theorem selfie_ok_paths (clientSet : Bool) (bot_name base_image_path : String)
    (context : List (String × String)) (upstream : Option (List Nat)) (u : String)
    (r : SelfieResult)
    (h : generate_and_save_selfie clientSet bot_name base_image_path context upstream u = .ok r) :
    r.writtenPath = "static/images/" ++ (u ++ ".png") ∧
    r.imagePath = "/static/images/" ++ (u ++ ".png") := by
  unfold generate_and_save_selfie at h
  split at h
  · simp at h
  · cases hu : upstream with
    | none => rw [hu] at h; simp at h
    | some image_bytes =>
        rw [hu] at h
        simp only [Except.ok.injEq] at h
        subst h
        exact ⟨rfl, rfl⟩

/-- The artifact path of any successful endpoint run. -/
theorem endpoint_ok_written (validBotIds : List String) (env : RequestEnv)
    (req : ImageGenerationRequest) (res : EndpointSuccess)
    (h : generate_image validBotIds env req = .ok res) :
    res.writtenPath = "static/images/" ++ (env.uuid ++ ".png") := by
  unfold generate_image at h
  dsimp only at h
  split at h
  · split at h
    · simp at h
    · rename_i base_image_path heq
      split at h
      · simp at h
      · rename_i r hsel
        simp only [Except.ok.injEq] at h
        subst h
        exact (selfie_ok_paths _ _ _ _ _ _ _ hsel).1
  · simp at h

/-- Concatenating after the `/static/images/` literal is the same as
prefixing a slash to the relative path. -/
theorem slash_static (x : String) :
    "/static/images/" ++ x = "/" ++ ("static/images/" ++ x) := by
  apply string_eq_of_data_eq
  have h : ("/static/images/" : String).data
      = ("/" : String).data ++ ("static/images/" : String).data := rfl
  simp [String.data_append, h]

/-- The extension loop is a first-match scan over the mapped candidate
paths, in order. -/
theorem findFirstExisting_eq (files : List String) (id : String) :
    ∀ exts : List String, findFirstExisting files id exts
      = (exts.map (fun ext => "photos/" ++ id ++ ext)).find? files.contains
  | [] => rfl
  | ext :: rest => by
      simp only [findFirstExisting, List.map_cons, List.find?_cons]
      cases hc : files.contains ("photos/" ++ id ++ ext) with
      | true => simp [hc]
      | false => simp [hc, findFirstExisting_eq files id rest]

/-! ### Claims -/

/-- C1 (counterexample): with the Gradio client unset, a request whose bot
identifier is unknown still returns 404, not 503 — the registry check runs
before the client check, so the claim "every request returns 503
regardless of input validity" fails. -/
theorem c1_counterexample :
    errorStatus (generate_image ["delhi_mentor_male"]
      { clientSet := false, existingFiles := [], reaction := none,
        scene := .callFailed, upstream := none, uuid := "u1",
        base_url := "http://localhost/" }
      { bot_id := "ghost_bot", message := "hi", email := "a@b.c",
        previous_conversation := "", username := "User" }) = some 404 ∧
    some 404 ≠ some 503 := by
  constructor
  · rfl
  · decide

/-- C1 (amended): if the Gradio client is unset, every request that passes
validation (known bot identifier and an existing base image) returns the
503 "service unavailable" error, regardless of the LLM and upstream
oracle outcomes; unknown-bot or missing-image requests return 404 first. -/
theorem c1_amended_503_after_validation (validBotIds : List String) (env : RequestEnv)
    (req : ImageGenerationRequest) (base_image_path : String)
    (hclient : env.clientSet = false)
    (h1 : req.bot_id ∈ validBotIds)
    (h2 : find_base_image env.existingFiles req.bot_id = some base_image_path) :
    generate_image validBotIds env req
      = .error (.serviceUnavailable "Image generation service is not available.") ∧
    errorStatus (generate_image validBotIds env req) = some 503 := by
  have he : generate_image validBotIds env req
      = .error (.serviceUnavailable "Image generation service is not available.") := by
    simp [generate_image, generate_and_save_selfie, h1, h2, hclient]
  exact ⟨he, by rw [he]; rfl⟩

/-- C1 witness: a valid request with the client unset gets exactly the 503
error. -/
theorem c1_witness :
    generate_image ["delhi_mentor_male"]
      { clientSet := false, existingFiles := ["photos/delhi_mentor_male.jpeg"],
        reaction := none, scene := .callFailed, upstream := none, uuid := "u1",
        base_url := "http://localhost/" }
      { bot_id := "delhi_mentor_male", message := "hi", email := "a@b.c",
        previous_conversation := "", username := "User" }
      = .error (.serviceUnavailable "Image generation service is not available.") ∧
    errorStatus (generate_image ["delhi_mentor_male"]
      { clientSet := false, existingFiles := ["photos/delhi_mentor_male.jpeg"],
        reaction := none, scene := .callFailed, upstream := none, uuid := "u1",
        base_url := "http://localhost/" }
      { bot_id := "delhi_mentor_male", message := "hi", email := "a@b.c",
        previous_conversation := "", username := "User" }) = some 503 :=
  c1_amended_503_after_validation _ _ _ "photos/delhi_mentor_male.jpeg"
    rfl (by decide) (by decide)

/-- C2: if the scene-extraction call fails or its output cannot be parsed
as JSON, `extract_context` returns exactly the literal default triple, and
the request still proceeds to image generation (it succeeds whenever the
client is set and the upstream call succeeds), with that triple as the
response's `emotion_context`. -/
theorem c2_scene_failure_defaults (validBotIds : List String) (env : RequestEnv)
    (req : ImageGenerationRequest) (base_image_path : String) (bytes : List Nat)
    (hscene : env.scene = .callFailed ∨ env.scene = .parseFailed)
    (h1 : req.bot_id ∈ validBotIds)
    (h2 : find_base_image env.existingFiles req.bot_id = some base_image_path)
    (h3 : env.clientSet = true)
    (h4 : env.upstream = some bytes) :
    extract_context env.scene
      = [("emotion", "neutral"), ("location", "a room"), ("action", "looking at the camera")] ∧
    contextOf (generate_image validBotIds env req)
      = some [("emotion", "neutral"), ("location", "a room"), ("action", "looking at the camera")] ∧
    statusOf (generate_image validBotIds env req) = some "success" := by
  have hctx : extract_context env.scene = defaultSceneContext := by
    rcases hscene with h | h <;> rw [h] <;> rfl
  have hok := generate_image_ok validBotIds env req base_image_path bytes h1 h2 h3 h4
  refine ⟨hctx, ?_, ?_⟩
  · rw [hok]; simp [contextOf, hctx, defaultSceneContext]
  · rw [hok]; rfl

/-- C2 witness. -/
theorem c2_witness :
    extract_context (RequestEnv.scene
      { clientSet := true, existingFiles := ["photos/delhi_mentor_male.jpeg"],
        reaction := some "ok", scene := .parseFailed, upstream := some [1, 2, 3],
        uuid := "u1", base_url := "http://localhost/" })
      = [("emotion", "neutral"), ("location", "a room"), ("action", "looking at the camera")] ∧
    contextOf (generate_image ["delhi_mentor_male"]
      { clientSet := true, existingFiles := ["photos/delhi_mentor_male.jpeg"],
        reaction := some "ok", scene := .parseFailed, upstream := some [1, 2, 3],
        uuid := "u1", base_url := "http://localhost/" }
      { bot_id := "delhi_mentor_male", message := "hi", email := "a@b.c",
        previous_conversation := "", username := "User" })
      = some [("emotion", "neutral"), ("location", "a room"), ("action", "looking at the camera")] ∧
    statusOf (generate_image ["delhi_mentor_male"]
      { clientSet := true, existingFiles := ["photos/delhi_mentor_male.jpeg"],
        reaction := some "ok", scene := .parseFailed, upstream := some [1, 2, 3],
        uuid := "u1", base_url := "http://localhost/" }
      { bot_id := "delhi_mentor_male", message := "hi", email := "a@b.c",
        previous_conversation := "", username := "User" }) = some "success" :=
  c2_scene_failure_defaults _ _ _ "photos/delhi_mentor_male.jpeg" [1, 2, 3]
    (Or.inr rfl) (by decide) (by decide) rfl rfl

/-- C3: for every successful request, base64-decoding the response's
`image_base64` yields exactly the bytes written to the file saved under
the generated path — both come from the same upstream image bytes. -/
theorem c3_base64_matches_saved_file (validBotIds : List String) (env : RequestEnv)
    (req : ImageGenerationRequest) (base_image_path : String) (bytes : List Nat)
    (hbytes : ∀ x ∈ bytes, x < 256)
    (h1 : req.bot_id ∈ validBotIds)
    (h2 : find_base_image env.existingFiles req.bot_id = some base_image_path)
    (h3 : env.clientSet = true)
    (h4 : env.upstream = some bytes) :
    Option.bind (base64Of (generate_image validBotIds env req)) b64decodeStr
      = some bytes ∧
    savedBytesOf (generate_image validBotIds env req) = some bytes ∧
    savedPathOf (generate_image validBotIds env req)
      = some ("static/images/" ++ (env.uuid ++ ".png")) := by
  have hok := generate_image_ok validBotIds env req base_image_path bytes h1 h2 h3 h4
  refine ⟨?_, by rw [hok]; rfl, by rw [hok]; rfl⟩
  rw [hok]
  show b64decodeStr (b64encodeStr bytes) = some bytes
  exact b64decode_b64encode bytes hbytes

/-- C3 witness. -/
theorem c3_witness :
    Option.bind (base64Of (generate_image ["delhi_mentor_male"]
      { clientSet := true, existingFiles := ["photos/delhi_mentor_male.jpeg"],
        reaction := some "ok", scene := .callFailed, upstream := some [0, 127, 255],
        uuid := "u1", base_url := "http://localhost/" }
      { bot_id := "delhi_mentor_male", message := "hi", email := "a@b.c",
        previous_conversation := "", username := "User" })) b64decodeStr
      = some [0, 127, 255] ∧
    savedBytesOf (generate_image ["delhi_mentor_male"]
      { clientSet := true, existingFiles := ["photos/delhi_mentor_male.jpeg"],
        reaction := some "ok", scene := .callFailed, upstream := some [0, 127, 255],
        uuid := "u1", base_url := "http://localhost/" }
      { bot_id := "delhi_mentor_male", message := "hi", email := "a@b.c",
        previous_conversation := "", username := "User" }) = some [0, 127, 255] ∧
    savedPathOf (generate_image ["delhi_mentor_male"]
      { clientSet := true, existingFiles := ["photos/delhi_mentor_male.jpeg"],
        reaction := some "ok", scene := .callFailed, upstream := some [0, 127, 255],
        uuid := "u1", base_url := "http://localhost/" }
      { bot_id := "delhi_mentor_male", message := "hi", email := "a@b.c",
        previous_conversation := "", username := "User" })
      = some ("static/images/" ++ ("u1" ++ ".png")) :=
  c3_base64_matches_saved_file _ _ _ "photos/delhi_mentor_male.jpeg" [0, 127, 255]
    (by decide) (by decide) (by decide) rfl rfl

/-- C4: for every successful request whose base URL has the shape
`scheme://host/`, the returned `image_url` is the request's own base URL
(with trailing slashes stripped) followed by the artifact's relative path,
i.e. an absolute URL whose path component is exactly
`/static/images/<filename>`, the relative path under which the artifact
was saved. -/
theorem c4_image_url_path (validBotIds : List String) (env : RequestEnv)
    (req : ImageGenerationRequest) (scheme host base_image_path : String) (bytes : List Nat)
    (hb : env.base_url = scheme ++ "://" ++ host ++ "/")
    (hs : ∀ ch ∈ scheme.data, ch ≠ ':')
    (hh0 : host.data ≠ [])
    (hh : ∀ ch ∈ host.data, ch ≠ '/')
    (h1 : req.bot_id ∈ validBotIds)
    (h2 : find_base_image env.existingFiles req.bot_id = some base_image_path)
    (h3 : env.clientSet = true)
    (h4 : env.upstream = some bytes) :
    imageUrlOf (generate_image validBotIds env req)
      = some (rstripSlash env.base_url ++ ("/static/images/" ++ (env.uuid ++ ".png"))) ∧
    imageUrlOf (generate_image validBotIds env req)
      = some ((scheme ++ "://" ++ host) ++ ("/static/images/" ++ (env.uuid ++ ".png"))) ∧
    (imageUrlOf (generate_image validBotIds env req)).map urlPath
      = some ("/static/images/" ++ (env.uuid ++ ".png")) ∧
    savedPathOf (generate_image validBotIds env req)
      = some ("static/images/" ++ (env.uuid ++ ".png")) := by
  have hok := generate_image_ok validBotIds env req base_image_path bytes h1 h2 h3 h4
  have hstrip : rstripSlash env.base_url = scheme ++ "://" ++ host := by
    rw [hb]; exact rstrip_base scheme host hh0 hh
  have hurl : urlPath ((scheme ++ "://" ++ host) ++ ("/static/images/" ++ (env.uuid ++ ".png")))
      = "/static/images/" ++ (env.uuid ++ ".png") := by
    rw [slash_static, urlPath_full scheme host _ hs hh, ← slash_static]
  refine ⟨by rw [hok]; rfl, ?_, ?_, by rw [hok]; rfl⟩
  · rw [hok]; simp [imageUrlOf, hstrip]
  · rw [hok]; simp [imageUrlOf, hstrip, hurl]

/-- C4 witness. -/
theorem c4_witness :
    imageUrlOf (generate_image ["delhi_mentor_male"]
      { clientSet := true, existingFiles := ["photos/delhi_mentor_male.jpeg"],
        reaction := some "ok", scene := .callFailed, upstream := some [1, 2, 3],
        uuid := "u1", base_url := "http://localhost/" }
      { bot_id := "delhi_mentor_male", message := "hi", email := "a@b.c",
        previous_conversation := "", username := "User" })
      = some (rstripSlash "http://localhost/" ++ ("/static/images/" ++ ("u1" ++ ".png"))) ∧
    imageUrlOf (generate_image ["delhi_mentor_male"]
      { clientSet := true, existingFiles := ["photos/delhi_mentor_male.jpeg"],
        reaction := some "ok", scene := .callFailed, upstream := some [1, 2, 3],
        uuid := "u1", base_url := "http://localhost/" }
      { bot_id := "delhi_mentor_male", message := "hi", email := "a@b.c",
        previous_conversation := "", username := "User" })
      = some (("http" ++ "://" ++ "localhost") ++ ("/static/images/" ++ ("u1" ++ ".png"))) ∧
    (imageUrlOf (generate_image ["delhi_mentor_male"]
      { clientSet := true, existingFiles := ["photos/delhi_mentor_male.jpeg"],
        reaction := some "ok", scene := .callFailed, upstream := some [1, 2, 3],
        uuid := "u1", base_url := "http://localhost/" }
      { bot_id := "delhi_mentor_male", message := "hi", email := "a@b.c",
        previous_conversation := "", username := "User" })).map urlPath
      = some ("/static/images/" ++ ("u1" ++ ".png")) ∧
    savedPathOf (generate_image ["delhi_mentor_male"]
      { clientSet := true, existingFiles := ["photos/delhi_mentor_male.jpeg"],
        reaction := some "ok", scene := .callFailed, upstream := some [1, 2, 3],
        uuid := "u1", base_url := "http://localhost/" }
      { bot_id := "delhi_mentor_male", message := "hi", email := "a@b.c",
        previous_conversation := "", username := "User" })
      = some ("static/images/" ++ ("u1" ++ ".png")) :=
  c4_image_url_path _ _ _ "http" "localhost" "photos/delhi_mentor_male.jpeg" [1, 2, 3]
    (by decide) (by decide) (by decide) (by decide) (by decide) (by decide) rfl rfl

/-- C5: when the scene call parses to a JSON object — in particular one
missing some of the three keys — that object replaces the scene context
entirely: `extract_context` returns it unchanged, the response's
`emotion_context` is exactly that object, and the upstream prompt is built
from it via per-key `.get` fallbacks, with no merging of the default
triple. -/
theorem c5_parsed_object_replaces (validBotIds : List String) (env : RequestEnv)
    (req : ImageGenerationRequest) (base_image_path : String) (bytes : List Nat)
    (obj : List (String × String))
    (hscene : env.scene = .parsed obj)
    (h1 : req.bot_id ∈ validBotIds)
    (h2 : find_base_image env.existingFiles req.bot_id = some base_image_path)
    (h3 : env.clientSet = true)
    (h4 : env.upstream = some bytes) :
    extract_context (SceneOutcome.parsed obj) = obj ∧
    contextOf (generate_image validBotIds env req) = some obj ∧
    promptOf (generate_image validBotIds env req)
      = some (prompt_text (titleCase (replaceUnderscore req.bot_id)) obj) := by
  have hok := generate_image_ok validBotIds env req base_image_path bytes h1 h2 h3 h4
  have hctx : extract_context env.scene = obj := by
    rw [hscene]
    simp [extract_context]
  exact ⟨by simp [extract_context], by rw [hok]; simp [contextOf, hctx],
    by rw [hok]; simp [promptOf, hctx]⟩

/-- C5 witness: a parsed object missing the `location` and `action` keys
is used as-is. -/
theorem c5_witness :
    extract_context (SceneOutcome.parsed [("emotion", "happy")]) = [("emotion", "happy")] ∧
    contextOf (generate_image ["delhi_mentor_male"]
      { clientSet := true, existingFiles := ["photos/delhi_mentor_male.jpeg"],
        reaction := some "ok", scene := .parsed [("emotion", "happy")],
        upstream := some [1, 2, 3], uuid := "u1", base_url := "http://localhost/" }
      { bot_id := "delhi_mentor_male", message := "hi", email := "a@b.c",
        previous_conversation := "", username := "User" }) = some [("emotion", "happy")] ∧
    promptOf (generate_image ["delhi_mentor_male"]
      { clientSet := true, existingFiles := ["photos/delhi_mentor_male.jpeg"],
        reaction := some "ok", scene := .parsed [("emotion", "happy")],
        upstream := some [1, 2, 3], uuid := "u1", base_url := "http://localhost/" }
      { bot_id := "delhi_mentor_male", message := "hi", email := "a@b.c",
        previous_conversation := "", username := "User" })
      = some (prompt_text (titleCase (replaceUnderscore "delhi_mentor_male"))
          [("emotion", "happy")]) :=
  c5_parsed_object_replaces _ _ _ "photos/delhi_mentor_male.jpeg" [1, 2, 3]
    [("emotion", "happy")] rfl (by decide) (by decide) rfl rfl

/-- C6: for any request whose bot identifier is not in the registry, the
endpoint returns 404 with a message containing that identifier. -/
theorem c6_unknown_bot_404 (validBotIds : List String) (env : RequestEnv)
    (req : ImageGenerationRequest) (h : req.bot_id ∉ validBotIds) :
    generate_image validBotIds env req
      = .error (.notFound ("Bot with id '" ++ req.bot_id ++ "' is not a valid bot.")) ∧
    errorStatus (generate_image validBotIds env req) = some 404 ∧
    ∃ p q, "Bot with id '" ++ req.bot_id ++ "' is not a valid bot."
      = p ++ req.bot_id ++ q := by
  have he : generate_image validBotIds env req
      = .error (.notFound ("Bot with id '" ++ req.bot_id ++ "' is not a valid bot.")) := by
    simp [generate_image, h]
  exact ⟨he, by rw [he]; rfl, ⟨"Bot with id '", "' is not a valid bot.", rfl⟩⟩

/-- C6 witness. -/
theorem c6_witness :
    generate_image ["delhi_mentor_male"]
      { clientSet := true, existingFiles := ["photos/delhi_mentor_male.jpeg"],
        reaction := some "ok", scene := .callFailed, upstream := some [1, 2, 3],
        uuid := "u1", base_url := "http://localhost/" }
      { bot_id := "ghost_bot", message := "hi", email := "a@b.c",
        previous_conversation := "", username := "User" }
      = .error (.notFound ("Bot with id '" ++ "ghost_bot" ++ "' is not a valid bot.")) ∧
    errorStatus (generate_image ["delhi_mentor_male"]
      { clientSet := true, existingFiles := ["photos/delhi_mentor_male.jpeg"],
        reaction := some "ok", scene := .callFailed, upstream := some [1, 2, 3],
        uuid := "u1", base_url := "http://localhost/" }
      { bot_id := "ghost_bot", message := "hi", email := "a@b.c",
        previous_conversation := "", username := "User" }) = some 404 ∧
    ∃ p q, "Bot with id '" ++ "ghost_bot" ++ "' is not a valid bot."
      = p ++ "ghost_bot" ++ q :=
  c6_unknown_bot_404 _ _ _ (by decide)

/-- C7: the base-image lookup is a deterministic first-match scan of the
fixed ordered extension list `.jpeg, .jpg, .png, .webp` over paths
`photos/<bot_id><ext>`, and when none of the four paths exists the
endpoint returns 404 even for a valid bot identifier. -/
theorem c7_ordered_extension_scan (validBotIds : List String) (env : RequestEnv)
    (req : ImageGenerationRequest)
    (hv : req.bot_id ∈ validBotIds)
    (habsent : ∀ ext ∈ supported_extensions,
        ("photos/" ++ req.bot_id ++ ext) ∉ env.existingFiles) :
    (∀ files id, find_base_image files id
        = (supported_extensions.map (fun ext => "photos/" ++ id ++ ext)).find? files.contains) ∧
    supported_extensions = [".jpeg", ".jpg", ".png", ".webp"] ∧
    errorStatus (generate_image validBotIds env req) = some 404 := by
  refine ⟨fun files id => findFirstExisting_eq files id supported_extensions, rfl, ?_⟩
  have e1 := habsent ".jpeg" (by simp [supported_extensions])
  have e2 := habsent ".jpg" (by simp [supported_extensions])
  have e3 := habsent ".png" (by simp [supported_extensions])
  have e4 := habsent ".webp" (by simp [supported_extensions])
  have hnone : find_base_image env.existingFiles req.bot_id = none := by
    simp [find_base_image, supported_extensions, findFirstExisting, e1, e2, e3, e4]
  simp [generate_image, errorStatus, hv, hnone, HTTPError.statusCode]

/-- C7 witness. -/
theorem c7_witness :
    (∀ files id, find_base_image files id
        = (supported_extensions.map (fun ext => "photos/" ++ id ++ ext)).find? files.contains) ∧
    supported_extensions = [".jpeg", ".jpg", ".png", ".webp"] ∧
    errorStatus (generate_image ["delhi_mentor_male"]
      { clientSet := true, existingFiles := ["photos/other_bot.png"],
        reaction := some "ok", scene := .callFailed, upstream := some [1, 2, 3],
        uuid := "u1", base_url := "http://localhost/" }
      { bot_id := "delhi_mentor_male", message := "hi", email := "a@b.c",
        previous_conversation := "", username := "User" }) = some 404 :=
  c7_ordered_extension_scan _ _ _ (by decide) (by decide)

/-- C8: a failing "reaction" call is never surfaced as a request error:
the synthesized fallback is exactly
`"<bot_name> is thinking about the message: '<message>'"`, it depends only
on the persona name and the user message, and a request with a failed
reaction call still completes successfully. -/
theorem c8_reaction_fallback (validBotIds : List String) (env : RequestEnv)
    (req : ImageGenerationRequest) (base_image_path : String) (bytes : List Nat)
    (hre : env.reaction = none)
    (h1 : req.bot_id ∈ validBotIds)
    (h2 : find_base_image env.existingFiles req.bot_id = some base_image_path)
    (h3 : env.clientSet = true)
    (h4 : env.upstream = some bytes) :
    get_bot_response_for_context req (titleCase (replaceUnderscore req.bot_id)) env.reaction
      = titleCase (replaceUnderscore req.bot_id) ++ " is thinking about the message: '"
        ++ req.message ++ "'" ∧
    (∀ req' : ImageGenerationRequest, req'.message = req.message →
      get_bot_response_for_context req' (titleCase (replaceUnderscore req.bot_id)) none
        = get_bot_response_for_context req (titleCase (replaceUnderscore req.bot_id)) none) ∧
    statusOf (generate_image validBotIds env req) = some "success" := by
  have hok := generate_image_ok validBotIds env req base_image_path bytes h1 h2 h3 h4
  refine ⟨by rw [hre]; simp [get_bot_response_for_context], ?_, by rw [hok]; rfl⟩
  intro req' hm
  simp [get_bot_response_for_context, hm]

/-- C8 witness. -/
theorem c8_witness :
    get_bot_response_for_context
      { bot_id := "delhi_mentor_male", message := "hi", email := "a@b.c",
        previous_conversation := "", username := "User" }
      (titleCase (replaceUnderscore "delhi_mentor_male"))
      (RequestEnv.reaction
        { clientSet := true, existingFiles := ["photos/delhi_mentor_male.jpeg"],
          reaction := none, scene := .callFailed, upstream := some [1, 2, 3],
          uuid := "u1", base_url := "http://localhost/" })
      = titleCase (replaceUnderscore "delhi_mentor_male")
        ++ " is thinking about the message: '" ++ "hi" ++ "'" ∧
    (∀ req' : ImageGenerationRequest, req'.message = "hi" →
      get_bot_response_for_context req' (titleCase (replaceUnderscore "delhi_mentor_male")) none
        = get_bot_response_for_context
            { bot_id := "delhi_mentor_male", message := "hi", email := "a@b.c",
              previous_conversation := "", username := "User" }
            (titleCase (replaceUnderscore "delhi_mentor_male")) none) ∧
    statusOf (generate_image ["delhi_mentor_male"]
      { clientSet := true, existingFiles := ["photos/delhi_mentor_male.jpeg"],
        reaction := none, scene := .callFailed, upstream := some [1, 2, 3],
        uuid := "u1", base_url := "http://localhost/" }
      { bot_id := "delhi_mentor_male", message := "hi", email := "a@b.c",
        previous_conversation := "", username := "User" }) = some "success" :=
  c8_reaction_fallback _ _ _ "photos/delhi_mentor_male.jpeg" [1, 2, 3]
    rfl (by decide) (by decide) rfl rfl

/-- C9: two requests that draw distinct fresh uuids save their artifacts
under distinct filenames, so successful concurrent requests never
overwrite each other's files. -/
theorem c9_distinct_filenames (v1 v2 : List String) (env1 env2 : RequestEnv)
    (req1 req2 : ImageGenerationRequest) (res1 res2 : EndpointSuccess)
    (hu : env1.uuid ≠ env2.uuid)
    (h1 : generate_image v1 env1 req1 = .ok res1)
    (h2 : generate_image v2 env2 req2 = .ok res2) :
    res1.writtenPath ≠ res2.writtenPath := by
  rw [endpoint_ok_written _ _ _ _ h1, endpoint_ok_written _ _ _ _ h2]
  intro hcontra
  exact hu (append_affix_inj "static/images/" ".png" _ _ hcontra)

/-- C9 witness: two successful runs with distinct uuids write distinct
paths. -/
theorem c9_witness :
    ("static/images/" ++ ("u1" ++ ".png") : String)
      ≠ "static/images/" ++ ("u2" ++ ".png") := by
  have h1 := generate_image_ok ["delhi_mentor_male"]
    { clientSet := true, existingFiles := ["photos/delhi_mentor_male.jpeg"],
      reaction := some "ok", scene := .callFailed, upstream := some [1, 2, 3],
      uuid := "u1", base_url := "http://localhost/" }
    { bot_id := "delhi_mentor_male", message := "hi", email := "a@b.c",
      previous_conversation := "", username := "User" }
    "photos/delhi_mentor_male.jpeg" [1, 2, 3] (by decide) (by decide) rfl rfl
  have h2 := generate_image_ok ["delhi_mentor_male"]
    { clientSet := true, existingFiles := ["photos/delhi_mentor_male.jpeg"],
      reaction := some "ok", scene := .callFailed, upstream := some [1, 2, 3],
      uuid := "u2", base_url := "http://localhost/" }
    { bot_id := "delhi_mentor_male", message := "hi", email := "a@b.c",
      previous_conversation := "", username := "User" }
    "photos/delhi_mentor_male.jpeg" [1, 2, 3] (by decide) (by decide) rfl rfl
  exact c9_distinct_filenames _ _ _ _ _ _ _ _ (by decide) h1 h2

/-- C10: every artifact of a successful `generate_and_save_selfie` is
written under `static/images/` with filename `<uuid>.png` — the `.png`
suffix is fixed whatever the base image path or the upstream bytes — and
the returned relative path is exactly `/static/images/<filename>`. -/
theorem c10_saved_path_shape (clientSet : Bool) (bot_name base_image_path : String)
    (context : List (String × String)) (upstream : Option (List Nat)) (u : String)
    (r : SelfieResult)
    (h : generate_and_save_selfie clientSet bot_name base_image_path context upstream u
      = .ok r) :
    r.writtenPath = "static/images/" ++ (u ++ ".png") ∧
    r.imagePath = "/static/images/" ++ (u ++ ".png") :=
  selfie_ok_paths clientSet bot_name base_image_path context upstream u r h

/-- C10 witness: a `.webp` base image still produces a `.png` artifact. -/
theorem c10_witness :
    ("static/images/w.png" : String) = "static/images/" ++ ("w" ++ ".png") ∧
    ("/static/images/w.png" : String) = "/static/images/" ++ ("w" ++ ".png") :=
  c10_saved_path_shape true "Bot" "photos/bot.webp" defaultSceneContext (some [0]) "w"
    { imagePath := "/static/images/w.png", imageBase64 := "AA==",
      writtenPath := "static/images/w.png", writtenBytes := [0],
      promptSent := prompt_text "Bot" defaultSceneContext } (by rfl)
